import Mathlib

/-!
Verification of the slither-style game server core.

This file is a shallow embedding, in Lean 4, of the server-side simulation
core of the repository (TypeScript): the Snake entity (path-based movement,
segment sampling, boosting), the spatial grid, the collision system
(snake-to-snake and snake-to-food), the physics boundary check, the food
system's death-to-loot conversion, the score system's leaderboard, and the
network broadcaster's scheduling constant.

Modelling conventions.
JavaScript numbers are modelled as rationals.  The handful of primitives
with no exact rational counterpart (Math.sqrt via the Euclidean distance
helper, Math.cos, Math.sin, and the pi-based angle normalisation) are taken
as an explicit oracle parameter (NumOracle below); theorems about concrete
scenarios instantiate the oracle with functions that agree with the exact
real values on every input actually reached in the scenario, and generic
theorems hold for every oracle.  Wall-clock times (Date.now()) are integer
milliseconds passed in explicitly.  JavaScript Map and Set values are
modelled as insertion-ordered lists, matching the iteration order the
ECMAScript specification guarantees for them.
-/

namespace Slither

/-- A 2-D point in world units, from game.types.ts. -/
structure Point where
  x : ℚ
  y : ℚ
deriving DecidableEq, Repr

/-- Squared Euclidean distance, from utils/math.ts distanceSquared. -/
def distanceSquared (a b : Point) : ℚ :=
  (b.x - a.x) * (b.x - a.x) + (b.y - a.y) * (b.y - a.y)

/-- Membership of a point in a circle, from utils/math.ts pointInCircle. -/
def pointInCircle (point center : Point) (radius : ℚ) : Bool :=
  distanceSquared point center ≤ radius * radius

/-- Circle intersection test, from utils/math.ts circlesIntersect. -/
def circlesIntersect (center1 : Point) (radius1 : ℚ) (center2 : Point) (radius2 : ℚ) : Bool :=
  distanceSquared center1 center2 ≤ (radius1 + radius2) * (radius1 + radius2)

/-- Squared distance from a point to a line segment, from utils/math.ts
distanceToSegmentSquared.  The source clamps the projection parameter t to
the interval from 0 to 1 and returns the squared distance to the clamped
projection; a degenerate segment falls back to the squared point distance. -/
def distanceToSegmentSquared (p v w : Point) : ℚ :=
  let l2 := distanceSquared v w
  if l2 = 0 then distanceSquared p v
  else
    let t := ((p.x - v.x) * (w.x - v.x) + (p.y - v.y) * (w.y - v.y)) / l2
    let t := max 0 (min 1 t)
    distanceSquared p ⟨v.x + t * (w.x - v.x), v.y + t * (w.y - v.y)⟩

-- Constants of config/game.config.ts (GAME_CONFIG).
namespace GAME_CONFIG

def TICK_RATE : ℚ := 60

def WORLD_WIDTH : ℚ := 5000

def WORLD_HEIGHT : ℚ := 5000

/-- INITIAL_SNAKE_LENGTH is 10; kept as a natural number because it also
drives the path-seeding loop count in the Snake constructor. -/
def INITIAL_SNAKE_LENGTH : ℕ := 10

def SNAKE_SPEED : ℚ := 150

def SEGMENT_RADIUS : ℚ := 8

def SEGMENT_SPACING : ℚ := 15

def FOOD_COUNT : ℚ := 1500

def FOOD_VALUE : ℚ := 1

def FOOD_RADIUS : ℚ := 5

def FOOD_MIN_SIZE : ℚ := 3

def FOOD_MAX_SIZE : ℚ := 8

def MAGNET_RADIUS : ℚ := 50

def POINTS_PER_FOOD : ℚ := 2

def POINTS_PER_KILL : ℚ := 100

def LEADERBOARD_SIZE : ℕ := 10

/-- MAP_RADIUS is read by PhysicsSystem.handleWorldBoundaries as
GAME_CONFIG.MAP_RADIUS, but no key of that name exists in the GAME_CONFIG
object of config/game.config.ts.  The JavaScript property access therefore
evaluates to undefined; we model the absent constant as the empty option. -/
def MAP_RADIUS : Option ℚ := none

end GAME_CONFIG

/-- Constants of config/performance.config.ts used by the spatial grid. -/
def SPATIAL_GRID_CELL_SIZE : ℚ := 500

-- Constants of config/network.config.ts (NETWORK_CONFIG).
namespace NETWORK_CONFIG

/-- UPDATE_RATE is 60 in config/network.config.ts, annotated there with the
words: send state updates 60 times per second. -/
def UPDATE_RATE : ℚ := 60

def VIEWPORT_RADIUS : ℚ := 1500

def VIEWPORT_BUFFER : ℚ := 200

end NETWORK_CONFIG

/-- Periodic interval of the broadcast loop, from the StateBroadcaster
constructor: updateInterval is 1000 divided by NETWORK_CONFIG.UPDATE_RATE
(milliseconds). -/
def StateBroadcaster.updateInterval : ℚ := 1000 / NETWORK_CONFIG.UPDATE_RATE

/-- Numeric primitives of the JavaScript runtime with no exact rational
counterpart.  dist stands for the Euclidean distance helper of
utils/math.ts (it uses Math.sqrt); cos and sin stand for Math.cos and
Math.sin; wrapAngle stands for normalizeAngle and angleDiff for
angleDifference of the Snake class (both loop on the float value of pi).
Generic theorems below quantify over every oracle; concrete scenarios use
an oracle that agrees with the exact real values on every input the
scenario reaches. -/
structure NumOracle where
  dist : Point → Point → ℚ
  cos : ℚ → ℚ
  sin : ℚ → ℚ
  wrapAngle : ℚ → ℚ
  angleDiff : ℚ → ℚ → ℚ

/-- A sampled body segment: a point together with a collision radius, the
Point-with-radius records produced by Snake.getSegments and Snake.getHead. -/
structure SegPoint where
  x : ℚ
  y : ℚ
  radius : ℚ
deriving DecidableEq, Repr

/-- Position of a segment sample as a plain point. -/
def SegPoint.pos (s : SegPoint) : Point := ⟨s.x, s.y⟩

/-- The Snake entity (entities/Snake.ts).  The path holds the trail in
tail-to-head order; cachedSegments and segmentsDirty model the segment
cache.  spawnTime is in integer milliseconds. -/
structure Snake where
  id : String
  playerId : String
  name : String
  head : Point
  direction : ℚ
  targetDirection : ℚ
  length : ℚ
  speed : ℚ
  color : String
  skinId : String
  isAlive : Bool
  spawnTime : ℤ
  isBoosting : Bool
  path : List Point
  segmentsDirty : Bool
  cachedSegments : List SegPoint
deriving DecidableEq, Repr

/-- Age accessor of Snake: Date.now() minus spawnTime; the current wall
clock is passed explicitly. -/
def Snake.age (s : Snake) (now : ℤ) : ℤ := now - s.spawnTime

/-- Hard cap on length, the private maxLength field of Snake. -/
def Snake.maxLength : ℚ := 500

/-- Snake.setBoosting from entities/Snake.ts: the flag is set exactly when
boosting is requested and the length is strictly greater than 5 (the
literal threshold in the source); otherwise it is cleared. -/
def Snake.setBoosting (s : Snake) (isBoosting : Bool) : Snake :=
  if isBoosting = true ∧ 5 < s.length then { s with isBoosting := true }
  else { s with isBoosting := false }

/-- Snake.grow: length increases by the given amount, capped at maxLength;
the segment cache is invalidated. -/
def Snake.grow (s : Snake) (amount : ℚ) : Snake :=
  { s with length := min (s.length + amount) Snake.maxLength, segmentsDirty := true }

/-- Snake.die: clears the alive flag. -/
def Snake.die (s : Snake) : Snake := { s with isAlive := false }

/-- Snake.getHead: the head position with radius SEGMENT_RADIUS + 2. -/
def Snake.getHead (s : Snake) : SegPoint :=
  ⟨s.head.x, s.head.y, GAME_CONFIG.SEGMENT_RADIUS + 2⟩

/-- Snake.getLastPathPoint: the final element of the path when the path is
nonempty.  Note that this is the most recently appended point, at the head
end of the trail. -/
def Snake.getLastPathPoint (s : Snake) : Option Point := s.path.getLast?

/-- Snake.changeDirection: stores the wrapped requested heading. -/
def Snake.changeDirection (o : NumOracle) (s : Snake) (newDirection : ℚ) : Snake :=
  { s with targetDirection := o.wrapAngle newDirection }

/-- Snake.appendToPath: the current head is appended to the path when its
distance to the previous last path point is at least 2 (PATH_RES); the path
is capped at 2000 points by shifting from the front.  The source never
calls this with an empty path; on an empty path we leave it unchanged. -/
def appendToPath (o : NumOracle) (head : Point) (path : List Point) : List Point :=
  match path.getLast? with
  | none => path
  | some lastPoint =>
      if 2 ≤ o.dist head lastPoint then
        let p := path ++ [head]
        if 2000 < p.length then p.drop 1 else p
      else path

/-- Adjacent pairs of the reversed path: the pair at position k corresponds
to indices (n-1-k, n-2-k) of the path, matching the source loops that walk
the path from the head (index n-1) toward the tail with p1 at index i and
p2 at index i-1. -/
def revPairs (path : List Point) : List (Point × Point) :=
  let rev := path.reverse
  rev.zip rev.tail

/-- Body of Snake.trimPathByDistance: walk the path from the head toward the
tail accumulating inter-point distances; return the index at which the
accumulated distance first reaches the target length (0 when it never
does).  The index argument starts at path length minus 1 and decreases. -/
def trimIndexLoop (o : NumOracle) (maxPathLength : ℚ) :
    List (Point × Point) → ℕ → ℚ → ℕ
  | [], _, _ => 0
  | (p1, p2) :: rest, i, totalDistance =>
      let totalDistance := totalDistance + o.dist p1 p2
      if maxPathLength ≤ totalDistance then i
      else trimIndexLoop o maxPathLength rest (i - 1) totalDistance

/-- Snake.trimPathByDistance: drop everything before the trim index, so the
retained arc length from the head stays below length times SEGMENT_SPACING
plus one path gap. -/
def Snake.trimPathByDistance (o : NumOracle) (s : Snake) : Snake :=
  let maxPathLength := s.length * GAME_CONFIG.SEGMENT_SPACING
  let idx := trimIndexLoop o maxPathLength (revPairs s.path) (s.path.length - 1) 0
  if 0 < idx then { s with path := s.path.drop idx } else s

/-- Sub-step loop of Snake.move: each sub-step turns by stepTurn, advances
the head by stepDist along the current direction, and appends the head to
the path. -/
def substeps (o : NumOracle) (stepDist stepTurn : ℚ) : ℕ → Snake → Snake
  | 0, s => s
  | n + 1, s =>
      let dir := o.wrapAngle (s.direction + stepTurn)
      let head : Point := ⟨s.head.x + o.cos dir * stepDist, s.head.y + o.sin dir * stepDist⟩
      substeps o stepDist stepTurn n
        { s with direction := dir, head := head, path := appendToPath o head s.path }

/-- Snake.move from entities/Snake.ts.  Boost physics (double speed above
length 10, probabilistic mass burn keyed on Date.now() mod 300, auto-clear
of the flag at length at most 10), angle interpolation clamped to 0.15
radians, sub-stepped head advancement with path capture, then the trim by
distance and cache invalidation.  When the travel distance is 0 the
sub-step count is 0 and the (in JavaScript NaN-valued) per-step quantities
are never used; rational division by zero is likewise irrelevant there. -/
def Snake.move (o : NumOracle) (now : ℤ) (deltaTime : ℚ) (s : Snake) : Snake :=
  if s.isAlive = false then s else
  let pair :=
    if s.isBoosting then
      if 10 < s.length then
        if now % 300 < 50 then
          (s.speed * 2, { s with length := max 10 (s.length - 1/5), segmentsDirty := true })
        else (s.speed * 2, s)
      else (s.speed, { s with isBoosting := false })
    else (s.speed, s)
  let currentSpeed := pair.1
  let s := pair.2
  let angleDiff := o.angleDiff s.direction s.targetDirection
  let turnAmount := max (-(3/20)) (min (3/20) angleDiff)
  let s := { s with direction := o.wrapAngle (s.direction + turnAmount) }
  let distance := currentSpeed * deltaTime
  let steps := (Int.ceil (distance / 4)).toNat
  let stepDist := distance / (steps : ℚ)
  let stepTurn := turnAmount / (steps : ℚ)
  let s := substeps o stepDist stepTurn steps s
  let s := s.trimPathByDistance o
  { s with segmentsDirty := true }

/-- Inner sampling loop of Snake.getSegments: while the accumulated
distance plus the current path-gap length reaches SEGMENT_SPACING and fewer
than length samples exist, emit an interpolated sample and reset the
accumulator.  The fuel bounds the iteration count; every iteration emits a
sample, and the caller passes more fuel than samples can ever be emitted,
so the fuel never runs out before the loop condition fails. -/
def sampleWhile (p1 p2 : Point) (segmentLength len : ℚ) :
    ℕ → ℚ → List SegPoint → List SegPoint × ℚ
  | 0, currentDistance, acc => (acc, currentDistance)
  | fuel + 1, currentDistance, acc =>
      if GAME_CONFIG.SEGMENT_SPACING ≤ currentDistance + segmentLength ∧
          (acc.length : ℚ) < len then
        let remainingDist := GAME_CONFIG.SEGMENT_SPACING - currentDistance
        let t := remainingDist / segmentLength
        let point : SegPoint :=
          ⟨p1.x + (p2.x - p1.x) * t, p1.y + (p2.y - p1.y) * t, GAME_CONFIG.SEGMENT_RADIUS⟩
        sampleWhile p1 p2 segmentLength len fuel 0 (acc ++ [point])
      else (acc, currentDistance)

/-- Outer loop of Snake.getSegments: walk the head-to-tail path gaps while
fewer than length samples exist. -/
def segWalk (o : NumOracle) (len : ℚ) (fuel : ℕ) :
    List (Point × Point) → ℚ → List SegPoint → List SegPoint
  | [], _, acc => acc
  | (p1, p2) :: rest, currentDistance, acc =>
      if (acc.length : ℚ) < len then
        let segmentLength := o.dist p1 p2
        let out := sampleWhile p1 p2 segmentLength len fuel currentDistance acc
        segWalk o len fuel rest (out.2 + segmentLength) out.1
      else acc

/-- Snake body sampling (the recomputation branch of Snake.getSegments):
the head sample carries radius SEGMENT_RADIUS + 2 and body samples carry
SEGMENT_RADIUS, taken every SEGMENT_SPACING units of arc length from the
head toward the tail, stopping after length samples or at the tail. -/
def Snake.computeSegments (o : NumOracle) (s : Snake) : List SegPoint :=
  let acc0 : List SegPoint := [⟨s.head.x, s.head.y, GAME_CONFIG.SEGMENT_RADIUS + 2⟩]
  segWalk o s.length ((Int.ceil s.length).toNat + 1) (revPairs s.path) 0 acc0

/-- Snake.getSegments: return the cache when it is clean and nonempty,
otherwise recompute.  The source also stores the recomputed list back into
the cache; that write is behaviourally transparent here because every later
read either sees the clean cache holding exactly this list or recomputes. -/
def Snake.getSegments (o : NumOracle) (s : Snake) : List SegPoint :=
  if s.segmentsDirty = false ∧ s.cachedSegments ≠ [] then s.cachedSegments
  else s.computeSegments o

/-- The Snake constructor: seeds a straight path of INITIAL_SNAKE_LENGTH
points ending at the origin position, walking backwards along the spawn
direction at SEGMENT_SPACING intervals (loop index i from length - 1 down
to 0, pushing so the head lands at the end of the path). -/
def Snake.new (o : NumOracle) (id playerId name : String) (position : Point)
    (direction : ℚ) (color skinId : String) (now : ℤ) : Snake :=
  let path := (List.range GAME_CONFIG.INITIAL_SNAKE_LENGTH).reverse.map fun i =>
    let dist := (i : ℚ) * GAME_CONFIG.SEGMENT_SPACING
    Point.mk (position.x - o.cos direction * dist) (position.y - o.sin direction * dist)
  { id := id, playerId := playerId, name := name, head := position,
    direction := direction, targetDirection := direction,
    length := (GAME_CONFIG.INITIAL_SNAKE_LENGTH : ℚ), speed := GAME_CONFIG.SNAKE_SPEED,
    color := color, skinId := skinId, isAlive := true, spawnTime := now,
    isBoosting := false, path := path, segmentsDirty := true, cachedSegments := [] }

/-- The serialized snake record of Snake.serialize (network payload). -/
structure SerializedSnake where
  id : String
  playerId : String
  head : Point
  direction : ℚ
  length : ℚ
  color : String
  skinId : String
  isBoosting : Bool
  score : ℤ
  path : List Point
  name : String
deriving DecidableEq, Repr

/-- Snake.serialize: the score field is Math.floor of length times 10,
computed from the snake alone. -/
def Snake.serialize (s : Snake) : SerializedSnake :=
  { id := s.id, playerId := s.playerId, head := s.head, direction := s.direction,
    length := s.length, color := s.color, skinId := s.skinId,
    isBoosting := s.isBoosting, score := ⌊s.length * 10⌋, path := s.path, name := s.name }

/-- The Food entity (entities/Food.ts). -/
structure Food where
  id : String
  position : Point
  value : ℚ
  radius : ℚ
  color : String
  isConsumed : Bool
deriving DecidableEq, Repr

/-- Food.consume: marks the item consumed. -/
def Food.consume (f : Food) : Food := { f with isConsumed := true }

/-- The Player entity (entities/Player.ts), restricted to the fields the
simulation core reads. -/
structure Player where
  id : String
  socketId : String
  name : String
  score : ℚ
  isAlive : Bool
deriving DecidableEq, Repr

/-- Player.addScore: adds points to the cumulative score. -/
def Player.addScore (p : Player) (points : ℚ) : Player :=
  { p with score := p.score + points }

/-- Grid cell coordinates.  The source builds the string key from the two
floor-divided coordinates; the pair is a faithful stand-in because the key
is only ever built from and split back into the pair. -/
abbrev CellKey := ℤ × ℤ

/-- SpatialGrid.getCellKey: floor division of both coordinates by the cell
size. -/
def getCellKey (cellSize : ℚ) (x y : ℚ) : CellKey := (⌊x / cellSize⌋, ⌊y / cellSize⌋)

/-- A JavaScript Map from cell keys to Sets of entity ids, as an
insertion-ordered association list of insertion-ordered duplicate-free id
lists. -/
abbrev CellMap := List (CellKey × List String)

/-- Adding an id to a cell's Set: appends a fresh entry or extends the
existing id list (Set.add is a no-op on a present element). -/
def cellInsert (k : CellKey) (id : String) : CellMap → CellMap
  | [] => [(k, [id])]
  | (k', ids) :: rest =>
      if k' = k then (k', if id ∈ ids then ids else ids ++ [id]) :: rest
      else (k', ids) :: cellInsert k id rest

/-- Reading a cell's Set: the id list of the matching entry, empty when the
cell is absent. -/
def cellGet (k : CellKey) (g : CellMap) : List String :=
  match g.find? (fun e => e.fst = k) with
  | some e => e.snd
  | none => []

/-- Deleting an id from a cell's Set, dropping the map entry when the Set
becomes empty (the removeFood bookkeeping in SpatialGrid). -/
def cellRemove (k : CellKey) (id : String) : CellMap → CellMap
  | [] => []
  | (k', ids) :: rest =>
      if k' = k then
        let ids' := ids.filter (fun i => i ≠ id)
        if ids' = [] then rest else (k', ids') :: rest
      else (k', ids) :: cellRemove k id rest

/-- First-occurrence deduplication, the JavaScript Set built in
getSnakeCells before it is turned back into an array. -/
def dedupCells (l : List CellKey) : List CellKey :=
  l.foldl (fun acc k => if k ∈ acc then acc else acc ++ [k]) []

/-- The spatial grid (systems/SpatialGrid.ts): a snake grid rebuilt every
tick, a food grid maintained incrementally, and the food-id-to-cell map
used by removeFood. -/
structure SpatialGrid where
  cellSize : ℚ
  grid : CellMap
  snakePositions : List (String × List CellKey)
  foodGrid : CellMap
  foodPositions : List (String × CellKey)
deriving DecidableEq, Repr

/-- The spatial grid as constructed with the default cell size. -/
def SpatialGrid.empty : SpatialGrid :=
  { cellSize := SPATIAL_GRID_CELL_SIZE, grid := [], snakePositions := [],
    foodGrid := [], foodPositions := [] }

/-- SpatialGrid.getSnakeCells: the deduplicated cells touched by a snake's
sampled segments. -/
def SpatialGrid.getSnakeCells (o : NumOracle) (g : SpatialGrid) (s : Snake) : List CellKey :=
  dedupCells ((s.getSegments o).map fun seg => getCellKey g.cellSize seg.x seg.y)

/-- SpatialGrid.rebuild: clear the snake grid, then insert every living
snake's id into every cell its segments touch. -/
def SpatialGrid.rebuild (o : NumOracle) (snakes : List Snake) (g : SpatialGrid) : SpatialGrid :=
  let cleared := { g with grid := [], snakePositions := [] }
  snakes.foldl (fun acc s =>
    if s.isAlive = false then acc
    else
      let cells := SpatialGrid.getSnakeCells o acc s
      let acc := { acc with snakePositions := acc.snakePositions ++ [(s.id, cells)] }
      cells.foldl (fun a ck => { a with grid := cellInsert ck s.id a.grid }) acc) cleared

/-- Setting a key in a JavaScript Map modelled as an association list:
update the existing entry or append a new one. -/
def mapSet (k : String) (v : CellKey) : List (String × CellKey) → List (String × CellKey)
  | [] => [(k, v)]
  | (k', v') :: rest => if k' = k then (k, v) :: rest else (k', v') :: mapSet k v rest

/-- SpatialGrid.addFood: insert the food id into the cell of its position
and record that cell in foodPositions. -/
def SpatialGrid.addFood (g : SpatialGrid) (f : Food) : SpatialGrid :=
  let ck := getCellKey g.cellSize f.position.x f.position.y
  { g with foodGrid := cellInsert ck f.id g.foodGrid,
           foodPositions := mapSet f.id ck g.foodPositions }

/-- SpatialGrid.removeFood: look up the recorded cell, delete the id from
that cell's Set (dropping the cell when empty), and delete the
foodPositions entry. -/
def SpatialGrid.removeFood (g : SpatialGrid) (foodId : String) : SpatialGrid :=
  match g.foodPositions.find? (fun e => e.fst = foodId) with
  | none => g
  | some e =>
      { g with foodGrid := cellRemove e.snd foodId g.foodGrid,
               foodPositions := g.foodPositions.filter (fun e' => e'.fst ≠ foodId) }

/-- Inclusive integer range as a list, low to high, for the cell loops of
the radius queries. -/
def intRange (lo hi : ℤ) : List ℤ :=
  (List.range (hi + 1 - lo).toNat).map fun i => lo + (i : ℤ)

/-- The food store of the game state: the JavaScript Map from food id to
Food, as an insertion-ordered association list. -/
abbrev FoodMap := List (String × Food)

/-- Map lookup on the food store. -/
def lookupFood (m : FoodMap) (fid : String) : Option Food :=
  (m.find? (fun e => e.fst = fid)).map (fun e => e.snd)

/-- Updating the entry of one food id in the store. -/
def updateFood (m : FoodMap) (fid : String) (f : Food → Food) : FoodMap :=
  m.map fun e => if e.fst = fid then (e.fst, f e.snd) else e

/-- SpatialGrid.getFoodInRadius: iterate the cells of the bounding square,
collect the ids whose food exists and is not consumed at query time.  The
source returns the Food objects themselves; since the only Food field that
can change between this query and the later uses is isConsumed (which the
caller re-reads), returning ids and re-reading the store at each use is
exactly the JavaScript reference semantics. -/
def SpatialGrid.getFoodInRadius (g : SpatialGrid) (position : Point) (radius : ℚ)
    (allFood : FoodMap) : List String :=
  let minCellX := ⌊(position.x - radius) / g.cellSize⌋
  let maxCellX := ⌊(position.x + radius) / g.cellSize⌋
  let minCellY := ⌊(position.y - radius) / g.cellSize⌋
  let maxCellY := ⌊(position.y + radius) / g.cellSize⌋
  (intRange minCellX maxCellX).foldl (fun acc cx =>
    (intRange minCellY maxCellY).foldl (fun acc cy =>
      (cellGet (cx, cy) g.foodGrid).foldl (fun acc fid =>
        match lookupFood allFood fid with
        | some f => if f.isConsumed = false then acc ++ [fid] else acc
        | none => acc) acc) acc) []

/-- SpatialGrid.getNearbySnakes: scan the 3-by-3 block of cells around the
snake's head cell in the source's loop order, look each id up in the live
snake collection, and push each other living snake once (the checkedSnakes
Set records exactly the pushed ids). -/
def SpatialGrid.getNearbySnakes (g : SpatialGrid) (s : Snake) (allSnakes : List Snake) :
    List Snake :=
  let c := getCellKey g.cellSize s.head.x s.head.y
  let offsets : List ℤ := [-1, 0, 1]
  offsets.foldl (fun acc dx =>
    offsets.foldl (fun acc dy =>
      (cellGet (c.1 + dx, c.2 + dy) g.grid).foldl (fun (acc : List Snake) sid =>
        if sid ≠ s.id ∧ acc.all (fun t => t.id ≠ sid) then
          match allSnakes.find? (fun t => t.id = sid) with
          | some otherSnake => if otherSnake.isAlive then acc ++ [otherSnake] else acc
          | none => acc
        else acc) acc) acc) []

/-- Collision event type tags (the tagged strings of game.types.ts,
snake-snake, snake-food and snake-self). -/
inductive EventType where
  | snakeSnake
  | snakeFood
  | snakeSelf
deriving DecidableEq, Repr

/-- A collision event: the victim or eater snake id, the killer snake id or
food id, the event position and the wall-clock timestamp. -/
structure CollisionEvent where
  type : EventType
  snakeId : String
  targetId : Option String
  position : Point
  timestamp : ℤ
deriving DecidableEq, Repr

/-- The authoritative game state (core/GameState.ts) restricted to the
entity collections the simulation systems read and write. -/
structure GameState where
  snakes : List Snake
  food : FoodMap
  players : List Player
deriving DecidableEq, Repr

/-- Updating the entry of one player id in the player collection. -/
def updatePlayer (ps : List Player) (pid : String) (f : Player → Player) : List Player :=
  ps.map fun p => if p.id = pid then f p else p

/-- Inner segment loop of checkSnakeCollisions for one other snake: every
iteration first applies the grace-period guard (a continue whenever the
victim is younger than 3000 milliseconds), then tests the victim's head
circle against the segment circle; the result says whether a collision was
found. -/
def findHit (now : ℤ) (victim : Snake) : List SegPoint → Bool
  | [] => false
  | seg :: rest =>
      if victim.age now < 3000 then findHit now victim rest
      else if circlesIntersect victim.getHead.pos victim.getHead.radius seg.pos seg.radius
      then true
      else findHit now victim rest

/-- Loop of checkSnakeCollisions over the nearby snakes for one victim: on
the first segment hit the event is recorded, the victim dies, and both
loops break; otherwise the victim is unchanged. -/
def victimLoop (o : NumOracle) (now : ℤ) (victim : Snake) :
    List Snake → Snake × List CollisionEvent
  | [] => (victim, [])
  | otherSnake :: rest =>
      if findHit now victim (otherSnake.getSegments o) then
        (victim.die,
          [{ type := EventType.snakeSnake, snakeId := victim.id,
             targetId := some otherSnake.id, position := victim.head, timestamp := now }])
      else victimLoop o now victim rest

/-- One iteration of the outer checkSnakeCollisions loop: process the snake
at the given position of the live collection (skipping dead snakes), with
the nearby query running against the current collection. -/
def snakeCollisionStep (o : NumOracle) (now : ℤ) (grid : SpatialGrid)
    (acc : List Snake × List CollisionEvent) (i : ℕ) : List Snake × List CollisionEvent :=
  match acc.1[i]? with
  | none => acc
  | some s =>
      if s.isAlive = false then acc
      else
        let nearby := grid.getNearbySnakes s acc.1
        let out := victimLoop o now s nearby
        (acc.1.set i out.1, acc.2 ++ out.2)

/-- CollisionSystem.checkSnakeCollisions: iterate the snakes in insertion
order; deaths earlier in the pass are visible to later nearby queries
through the alive filter. -/
def checkSnakeCollisions (o : NumOracle) (now : ℤ) (grid : SpatialGrid)
    (snakes : List Snake) : List Snake × List CollisionEvent :=
  (List.range snakes.length).foldl (snakeCollisionStep o now grid) (snakes, [])

/-- Per-candidate body of checkFoodCollisions for the snake at a fixed
position: skip consumed (or vanished) food; otherwise a hit is a direct
head overlap at the grab radius or a swept pass of the segment from the
head to the last path point; on a hit the food is consumed, the snake
grows, the food leaves the spatial grid, the event is recorded, and the
eater's player receives value times POINTS_PER_FOOD. -/
def eatFood (now : ℤ) (snakeIdx : ℕ)
    (st : GameState × SpatialGrid × List CollisionEvent) (fid : String) :
    GameState × SpatialGrid × List CollisionEvent :=
  match st.1.snakes[snakeIdx]? with
  | none => st
  | some snake =>
      match lookupFood st.1.food fid with
      | none => st
      | some foodItem =>
          if foodItem.isConsumed then st
          else
            let head := snake.getHead
            let grabRadius := head.radius + foodItem.radius * 1
            let directHit := pointInCircle foodItem.position head.pos grabRadius
            let sweptHit : Bool :=
              match snake.getLastPathPoint with
              | some prevPoint =>
                  decide (distanceToSegmentSquared foodItem.position head.pos prevPoint ≤
                    grabRadius * grabRadius)
              | none => false
            if directHit || sweptHit then
              ({ snakes := st.1.snakes.set snakeIdx (snake.grow foodItem.value),
                 food := updateFood st.1.food fid Food.consume,
                 players := updatePlayer st.1.players snake.playerId
                   (fun p => p.addScore (foodItem.value * GAME_CONFIG.POINTS_PER_FOOD)) },
               st.2.1.removeFood fid,
               st.2.2 ++ [{ type := EventType.snakeFood, snakeId := snake.id,
                            targetId := some fid, position := foodItem.position,
                            timestamp := now }])
            else st

/-- One iteration of the outer checkFoodCollisions loop: for a living snake
query the food grid around the head with radius head radius plus twice
FOOD_MAX_SIZE, then fold the candidate list. -/
def foodCollisionStep (now : ℤ)
    (st : GameState × SpatialGrid × List CollisionEvent) (i : ℕ) :
    GameState × SpatialGrid × List CollisionEvent :=
  match st.1.snakes[i]? with
  | none => st
  | some snake =>
      if snake.isAlive = false then st
      else
        let head := snake.getHead
        let searchRadius := head.radius + GAME_CONFIG.FOOD_MAX_SIZE * 2
        let nearbyFood := st.2.1.getFoodInRadius head.pos searchRadius st.1.food
        nearbyFood.foldl (eatFood now i) st

/-- CollisionSystem.checkFoodCollisions over the whole snake collection. -/
def checkFoodCollisions (now : ℤ) (w : GameState) (grid : SpatialGrid) :
    GameState × SpatialGrid × List CollisionEvent :=
  (List.range w.snakes.length).foldl (foodCollisionStep now) (w, grid, [])

/-- CollisionSystem.update: reset the event list, rebuild the snake grid,
run snake-to-snake then snake-to-food collisions.  The self-collision check
is compiled out in the source (its condition is the literal false), so it
contributes nothing. -/
def collisionUpdate (o : NumOracle) (now : ℤ) (w : GameState) (grid : SpatialGrid) :
    GameState × SpatialGrid × List CollisionEvent :=
  let grid := grid.rebuild o w.snakes
  let out1 := checkSnakeCollisions o now grid w.snakes
  let w := { w with snakes := out1.1 }
  let out2 := checkFoodCollisions now w grid
  (out2.1, out2.2.1, out1.2 ++ out2.2.2)

/-- PhysicsSystem.handleWorldBoundaries: compare the squared distance of
the head from the world centre against the square of
GAME_CONFIG.MAP_RADIUS.  That key is absent from the config object, so the
radius reads as undefined, the squared radius is NaN, and the strict
comparison against NaN is false in JavaScript: the death branch is
unreachable.  The some branch records what the code would do if the
constant existed. -/
def handleWorldBoundaries (worldWidth worldHeight : ℚ) (s : Snake) : Snake :=
  let dx := s.head.x - worldWidth / 2
  let dy := s.head.y - worldHeight / 2
  let distSq := dx * dx + dy * dy
  match GAME_CONFIG.MAP_RADIUS with
  | none => s
  | some radius => if radius * radius < distSq then s.die else s

/-- PhysicsSystem.update: move every living snake, then apply the boundary
handler to it. -/
def physicsUpdate (o : NumOracle) (now : ℤ) (deltaTime : ℚ)
    (worldWidth worldHeight : ℚ) (snakes : List Snake) : List Snake :=
  snakes.map fun s =>
    if s.isAlive then
      handleWorldBoundaries worldWidth worldHeight (s.move o now deltaTime)
    else s

/-- A leaderboard row (game.types.ts LeaderboardEntry). -/
structure LeaderboardEntry where
  playerId : String
  name : String
  score : ℚ
  rank : ℕ
deriving DecidableEq, Repr

/-- Stable descending insertion by score: the new element goes in front of
the first element whose score it reaches, hence in front of later elements
of equal score and behind earlier ones. -/
def insertEntryDesc (e : LeaderboardEntry) : List LeaderboardEntry → List LeaderboardEntry
  | [] => [e]
  | e' :: rest =>
      if e'.score ≤ e.score then e :: e' :: rest else e' :: insertEntryDesc e rest

/-- The sort in ScoreSystem.updateLeaderboard: Array.prototype.sort with the
comparator subtracting scores, i.e. a stable sort descending by score
(ECMAScript 2019 requires sort stability), modelled as a stable insertion
sort. -/
def jsSortByScoreDesc (l : List LeaderboardEntry) : List LeaderboardEntry :=
  l.foldr insertEntryDesc []

/-- Rank assignment of updateLeaderboard: the JavaScript map with index,
giving the element at position i the rank i + 1 (the recursion carries the
rank of the current head). -/
def rankFrom (k : ℕ) : List LeaderboardEntry → List LeaderboardEntry
  | [] => []
  | e :: rest => { e with rank := k } :: rankFrom (k + 1) rest

/-- ScoreSystem.updateLeaderboard: one zero-ranked entry per player in the
player collection's insertion order, sorted by score descending, truncated
to LEADERBOARD_SIZE, and ranked by final position starting at 1. -/
def updateLeaderboard (players : List Player) : List LeaderboardEntry :=
  let entries := players.map fun p =>
    { playerId := p.id, name := p.name, score := p.score, rank := 0 : LeaderboardEntry }
  rankFrom 1 ((jsSortByScoreDesc entries).take GAME_CONFIG.LEADERBOARD_SIZE)

/-- ScoreSystem.handleSnakeDeath: award POINTS_PER_KILL to the killer
snake's player.  No call site of this method exists anywhere in the
repository; it is embedded here to state what the score system would do on
a snake-snake collision event if it were invoked. -/
def handleSnakeDeath (w : GameState) (_deadSnakeId : String)
    (killerSnakeId : Option String) : GameState :=
  match killerSnakeId with
  | none => w
  | some kid =>
      match w.snakes.find? (fun s => s.id = kid) with
      | none => w
      | some killerSnake =>
          { w with players := (updatePlayer w.players killerSnake.playerId
              (fun p => p.addScore GAME_CONFIG.POINTS_PER_KILL)) }

/-- ScoreSystem.update only recomputes the leaderboard; it reads the player
scores and writes no entity. -/
def scoreUpdate (w : GameState) : List LeaderboardEntry × GameState :=
  (updateLeaderboard w.players, w)

/-- Random draws consumed by the death-to-loot conversion, indexed by the
iteration of the spawn loop.  The field unit is the Math.random() sample
behind the randomFloat call of utils/random.ts, ident the string produced
by its randomId (built from Date.now() and Math.random()), and color the
element its randomElement picks from the FOOD_COLORS palette; ident and
color stay abstract draws because no property below depends on how those
strings are formed. -/
structure RandomOracle where
  unit : ℕ → ℚ
  ident : ℕ → String
  color : ℕ → String

/-- randomFloat of utils/random.ts: Math.random() times (max minus min)
plus min, with the Math.random() unit-interval sample made explicit as the
argument u. -/
def randomFloat (u : ℚ) (min max : ℚ) : ℚ := u * (max - min) + min

/-- Spawn loop of FoodSystem.processDeadSnakes for one dead snake: for
index i starting at 0 and increasing by the step while i is below the
segment count, create one food item at the segment position with radius
randomFloat over FOOD_MIN_SIZE plus 2 to FOOD_MAX_SIZE plus 4 and value
the maximum of 1 and the floor of half the radius.  The fuel dominates the
iteration count; the callers pass more fuel than the loop can iterate. -/
def spawnLoop (r : RandomOracle) (segs : List SegPoint) (stepNat : ℕ) :
    ℕ → ℕ → ℕ → List Food
  | _, _, 0 => []
  | i, callIdx, fuel + 1 =>
      match segs[i]? with
      | none => []
      | some segment =>
          let radius := randomFloat (r.unit callIdx)
            (GAME_CONFIG.FOOD_MIN_SIZE + 2) (GAME_CONFIG.FOOD_MAX_SIZE + 4)
          let foodValue : ℤ := max 1 ⌊radius * (1/2)⌋
          let f : Food :=
            { id := r.ident callIdx, position := ⟨segment.x, segment.y⟩,
              value := (foodValue : ℚ), radius := radius,
              color := r.color callIdx, isConsumed := false }
          f :: spawnLoop r segs stepNat (i + stepNat) (callIdx + 1) fuel

/-- Death-to-loot conversion of one dead snake in
FoodSystem.processDeadSnakes: foodPerSegment is the maximum of 1 and the
floor of length over 20, and segmentStep is the maximum of 1 and the floor
of the segment count divided by the segment count times foodPerSegment.
The float division the source performs agrees with exact rational division
on every outcome of the floor: the quotient is exactly 1 when
foodPerSegment is 1 and lies strictly between 0 and 1 otherwise. -/
def snakeToFood (o : NumOracle) (r : RandomOracle) (s : Snake) : List Food :=
  let segments := s.getSegments o
  let foodPerSegment : ℤ := max 1 ⌊s.length / 20⌋
  let segmentStep : ℤ :=
    max 1 ⌊(segments.length : ℚ) / ((segments.length : ℚ) * (foodPerSegment : ℚ))⌋
  spawnLoop r segments segmentStep.toNat 0 0 (segments.length + 1)

/-- Oracle for the concrete scenarios below, in which every angle that
occurs is 0 and every distance the oracle is asked for is between two
points on a common horizontal line.  Math.cos and Math.sin are exact at 0
(1 and 0); normalizeAngle and angleDifference are the identity and the
difference whenever the angles involved already lie within pi of each
other, which holds throughout since every angle is 0; and on axis-aligned
point pairs the L1 distance below equals the Euclidean distance. -/
def axisOracle : NumOracle :=
  { dist := fun p q => |q.x - p.x| + |q.y - p.y|
    cos := fun θ => if θ = 0 then 1 else 0
    sin := fun _ => 0
    wrapAngle := fun a => a
    angleDiff := fun a b => b - a }

-- Identifier and cosmetic strings used by the concrete scenarios.
def idA : String := "A"

def idB : String := "B"

def idW : String := "W"

def pidA : String := "pA"

def pidB : String := "pB"

def pidW : String := "pW"

def fid1 : String := "f1"

def pidTie1 : String := "p1"

def pidTie2 : String := "p2"

def colorHex : String := "#fff"

def skinDefault : String := "neon-green"

/-- Builder for concrete snake states: a living, non-boosting snake heading
due east (direction 0) at base speed with a dirty segment cache, as after
any mutation of its path. -/
def mkSnake (id playerId : String) (head : Point) (spawnTime : ℤ) (length : ℚ)
    (path : List Point) : Snake :=
  { id := id, playerId := playerId, name := id, head := head, direction := 0,
    targetDirection := 0, length := length, speed := GAME_CONFIG.SNAKE_SPEED,
    color := colorHex, skinId := skinDefault, isAlive := true, spawnTime := spawnTime,
    isBoosting := false, path := path, segmentsDirty := true, cachedSegments := [] }

/-- Boundary scenario: a living snake whose head sits 2600 units east of
the world centre, well outside the playfield radius of 2500. -/
def c1Snake : Snake := mkSnake idW pidW ⟨5100, 2500⟩ 0 10 [⟨5100, 2500⟩]

/-- Players backing the kill-reward scenario, both at score 0. -/
def playerA : Player :=
  { id := pidA, socketId := pidA, name := idA, score := 0, isAlive := true }

def playerB : Player :=
  { id := pidB, socketId := pidB, name := idB, score := 0, isAlive := true }

/-- Killer snake of the kill-reward scenario: a straight horizontal body
from x 2504 to x 2560 at y 2500 (path gaps of 14 units), spawned at time 0;
its body samples land at x 2560, 2545, 2531 and 2517. -/
def snakeA : Snake := mkSnake idA pidA ⟨2560, 2500⟩ 0 10
  [⟨2504, 2500⟩, ⟨2518, 2500⟩, ⟨2532, 2500⟩, ⟨2546, 2500⟩, ⟨2560, 2500⟩]

/-- Victim snake of the kill-reward scenario: its head at (2517, 2516) sits
16 units above a body sample of the killer, within the 18-unit collision
distance, while staying clear of the killer's head. -/
def snakeB : Snake := mkSnake idB pidB ⟨2517, 2516⟩ 0 10 [⟨2517, 2516⟩]

/-- The kill-reward scenario state: both snakes alive and both players at
score 0, no food anywhere, at wall clock 5000 so both snakes are past the
grace period. -/
def c2State : GameState :=
  { snakes := [snakeA, snakeB], food := [], players := [playerA, playerB] }

/-- The kill-reward scenario after one collision-system update. -/
def c2Run : GameState × SpatialGrid × List CollisionEvent :=
  collisionUpdate axisOracle 5000 c2State SpatialGrid.empty

/-- Player of the anti-tunneling scenario. -/
def playerW : Player :=
  { id := pidW, socketId := pidW, name := idW, score := 0, isAlive := true }

/-- Anti-tunneling scenario: a snake freshly constructed at (2500, 2500)
heading due east. -/
def c3Snake : Snake :=
  Snake.new axisOracle idW pidW idW ⟨2500, 2500⟩ 0 colorHex skinDefault 0

/-- Anti-tunneling scenario: a radius-5 food pellet at (2530, 2502), on the
head's travel corridor. -/
def c3Food : Food :=
  { id := fid1, position := ⟨2530, 2502⟩, value := 1, radius := 5,
    color := colorHex, isConsumed := false }

/-- Anti-tunneling scenario grid: the pellet registered in the food grid
(the most favourable configuration for the claim, since the running system
never populates the food grid at all). -/
def c3Grid : SpatialGrid := SpatialGrid.empty.addFood c3Food

/-- Physics step of the anti-tunneling scenario: delta time 2/5 seconds at
speed 150 moves the head 60 units east, from (2500, 2500) to (2560, 2500),
in one tick. -/
def c3Snakes : List Snake :=
  physicsUpdate axisOracle 5000 (2/5) GAME_CONFIG.WORLD_WIDTH GAME_CONFIG.WORLD_HEIGHT
    [c3Snake]

/-- Collision step of the anti-tunneling scenario. -/
def c3Run : GameState × SpatialGrid × List CollisionEvent :=
  collisionUpdate axisOracle 5000
    { snakes := c3Snakes, food := [(fid1, c3Food)], players := [playerW] } c3Grid

/-- Boost scenario: a snake of length exactly 10, the claimed threshold. -/
def c4Snake : Snake := mkSnake idW pidW ⟨2500, 2500⟩ 0 10 [⟨2500, 2500⟩]

/-- Death-to-loot scenario: a straight horizontal 16-point path with gaps
of 14 units, from x 2000 to x 2210 at y 3000. -/
def c6Path : List Point :=
  (List.range 16).map fun i => ⟨2000 + 14 * (i : ℚ), 3000⟩

/-- Death-to-loot scenario: a dead snake of length 60 over that path, whose
16 path points yield one head sample plus 14 body samples. -/
def c6Snake : Snake :=
  { mkSnake idW pidW ⟨2210, 3000⟩ 0 60 c6Path with isAlive := false }

/-- Random draws for the death-to-loot scenario: every unit sample is one
half, ids are the decimal call indices, colors are fixed. -/
def c6Rand : RandomOracle :=
  { unit := fun _ => 1/2, ident := fun n => toString n, color := fun _ => colorHex }

/-- Leaderboard tie scenario: the player that joined first has the
lexicographically larger id. -/
def playerTieFirst : Player :=
  { id := pidTie2, socketId := pidTie2, name := pidTie2, score := 5, isAlive := true }

def playerTieSecond : Player :=
  { id := pidTie1, socketId := pidTie1, name := pidTie1, score := 5, isAlive := true }

/-- Leaderboard tie scenario: two players with equal score 5, in an
insertion order that is descending by player id. -/
def c7Players : List Player := [playerTieFirst, playerTieSecond]

/-- Grace-period witness scenario: a single snake spawned at the very tick
under consideration (age 0). -/
def c9Snake : Snake := mkSnake idW pidW ⟨2500, 2500⟩ 0 10 [⟨2500, 2500⟩]

/-- Serialization scenario: a snake of length 11, so the serialized score
is 110. -/
def c10Snake : Snake := mkSnake idW pidW ⟨2500, 2500⟩ 0 11 [⟨2500, 2500⟩]

/-- Serialization scenario: the owning player after a 100-point award. -/
def c10Player : Player := playerW.addScore 100

/-- Invariant carried through the snake-collision pass for a grace-period
victim at a fixed position: the victim is still at its index, no other
index holds a snake with its id, and no recorded event names it. -/
def GraceInv (iW : ℕ) (W : Snake) (acc : List Snake × List CollisionEvent) : Prop :=
  acc.1[iW]? = some W ∧
  (∀ j S, acc.1[j]? = some S → S.id = W.id → j = iW) ∧
  (∀ e ∈ acc.2, e.snakeId ≠ W.id)

/-- Invariant of the food-collision pass: every recorded snake-food event
names a food id that is marked consumed in the current store, and the
recorded snake-food target ids are pairwise distinct. -/
def FoodConsumedInv (st : GameState × SpatialGrid × List CollisionEvent) : Prop :=
  (∀ e ∈ st.2.2, e.type = EventType.snakeFood →
     ∃ fid, e.targetId = some fid ∧
       (lookupFood st.1.food fid).map Food.isConsumed = some true) ∧
  ((st.2.2.filter fun e => decide (e.type = EventType.snakeFood)).map
    (fun e => e.targetId)).Nodup

/-- C1: the boundary-death claim fails on the code.  The snake of the
scenario has its head 2600 units from the world centre, strictly beyond
the playfield radius of 2500 (half the world width), yet
handleWorldBoundaries leaves it alive: the radius it compares against is
the absent GAME_CONFIG.MAP_RADIUS key, so in JavaScript the comparison is
against NaN and is always false; die is never called on any snake. -/
theorem c1_boundary_death_unreachable :
    2500 * 2500 < distanceSquared c1Snake.head ⟨2500, 2500⟩ ∧
    (handleWorldBoundaries GAME_CONFIG.WORLD_WIDTH GAME_CONFIG.WORLD_HEIGHT
      c1Snake).isAlive = true := by
  norm_num [distanceSquared, handleWorldBoundaries, GAME_CONFIG.MAP_RADIUS,
    GAME_CONFIG.WORLD_WIDTH, GAME_CONFIG.WORLD_HEIGHT, c1Snake, mkSnake]

/-- C2: the kill-reward claim fails on the code.  In the scenario the
collision update records the snake-snake event with victim B and killer A
and kills B, yet both players' scores are still 0 afterwards, and the
score-system update leaves them at 0 as well: ScoreSystem.handleSnakeDeath,
the only code that awards POINTS_PER_KILL, has no call site.  The final
conjunct shows that invoking that dormant method on the same state would
have awarded the 100 points to A's player. -/
theorem c2_kill_reward_never_awarded :
    c2Run.2.2 = [{ type := EventType.snakeSnake, snakeId := idB, targetId := some idA,
                   position := ⟨2517, 2516⟩, timestamp := 5000 }] ∧
    c2Run.1.snakes.map Snake.isAlive = [true, false] ∧
    (scoreUpdate c2Run.1).2.players.map Player.score = [0, 0] ∧
    (handleSnakeDeath c2Run.1 idB (some idA)).players.map Player.score = [100, 0] := by
  norm_num [c2Run, c2State, collisionUpdate, checkSnakeCollisions, checkFoodCollisions,
    snakeCollisionStep, foodCollisionStep, eatFood, victimLoop, findHit,
    SpatialGrid.rebuild, SpatialGrid.empty, SpatialGrid.getSnakeCells,
    SpatialGrid.getNearbySnakes, SpatialGrid.getFoodInRadius, getCellKey, cellInsert,
    cellGet, dedupCells, intRange, lookupFood, updatePlayer, scoreUpdate,
    handleSnakeDeath, Player.addScore, Snake.getSegments, Snake.computeSegments,
    segWalk, sampleWhile, revPairs, Snake.getHead, Snake.getLastPathPoint, Snake.age,
    Snake.die, SegPoint.pos, circlesIntersect, pointInCircle, distanceSquared,
    distanceToSegmentSquared, snakeA, snakeB, playerA, playerB, mkSnake, idA, idB,
    pidA, pidB, colorHex, skinDefault, axisOracle, GAME_CONFIG.SEGMENT_RADIUS,
    GAME_CONFIG.SEGMENT_SPACING, GAME_CONFIG.SNAKE_SPEED, GAME_CONFIG.FOOD_MAX_SIZE,
    GAME_CONFIG.POINTS_PER_KILL, SPATIAL_GRID_CELL_SIZE, List.range_succ]
  all_goals simp

/-- Projection fact of the scenario oracle: angleDifference is the plain difference. -/
theorem axis_angleDiff (a b : ℚ) : axisOracle.angleDiff a b = b - a := rfl

/-- Numeral evaluation fact for Int.toNat used by the cell-range computations. -/
theorem intLit_toNat (n : ℕ) : (OfNat.ofNat n : ℤ).toNat = OfNat.ofNat n := rfl

/-- Numeral evaluation fact for Int.toNat at 1. -/
theorem int_toNat_one : (1 : ℤ).toNat = 1 := rfl

/-- Numeral evaluation fact for Int.toNat at 2. -/
theorem int_toNat_two : (2 : ℤ).toNat = 2 := rfl

/-- Projection fact of the scenario oracle: normalizeAngle is the identity. -/
theorem axis_wrap (a : ℚ) : axisOracle.wrapAngle a = a := rfl

set_option maxHeartbeats 1000000 in
/-- Stage 1 of the anti-tunneling scenario: the freshly constructed snake,
with its seeded 10-point straight path, written out explicitly. -/
theorem c3_snake_literal : c3Snake =
    { id := "W", playerId := "pW", name := "W", head := ⟨2500, 2500⟩,
      direction := 0, targetDirection := 0, length := 10, speed := 150,
      color := "#fff", skinId := "neon-green", isAlive := true, spawnTime := 0,
      isBoosting := false,
      path := [⟨2365, 2500⟩, ⟨2380, 2500⟩, ⟨2395, 2500⟩, ⟨2410, 2500⟩, ⟨2425, 2500⟩, ⟨2440, 2500⟩,
          ⟨2455, 2500⟩, ⟨2470, 2500⟩, ⟨2485, 2500⟩, ⟨2500, 2500⟩],
      segmentsDirty := true, cachedSegments := [] } := by
  norm_num [c3Snake, Snake.new, axisOracle, idW, pidW, colorHex, skinDefault,
    GAME_CONFIG.INITIAL_SNAKE_LENGTH, GAME_CONFIG.SNAKE_SPEED,
    GAME_CONFIG.SEGMENT_SPACING, List.range_succ]

set_option maxHeartbeats 2000000 in
/-- Stage 2 of the anti-tunneling scenario: the 15 movement sub-steps of
the tick append the 15 new head positions (4 units apart) to the path and
leave the head at (2560, 2500). -/
theorem c3_substeps_eval : substeps axisOracle 4 0 15
    { id := "W", playerId := "pW", name := "W", head := ⟨2500, 2500⟩,
      direction := 0, targetDirection := 0, length := 10, speed := 150,
      color := "#fff", skinId := "neon-green", isAlive := true, spawnTime := 0,
      isBoosting := false,
      path := [⟨2365, 2500⟩, ⟨2380, 2500⟩, ⟨2395, 2500⟩, ⟨2410, 2500⟩, ⟨2425, 2500⟩, ⟨2440, 2500⟩,
          ⟨2455, 2500⟩, ⟨2470, 2500⟩, ⟨2485, 2500⟩, ⟨2500, 2500⟩],
      segmentsDirty := true, cachedSegments := [] } =
    { id := "W", playerId := "pW", name := "W", head := ⟨2560, 2500⟩,
      direction := 0, targetDirection := 0, length := 10, speed := 150,
      color := "#fff", skinId := "neon-green", isAlive := true, spawnTime := 0,
      isBoosting := false,
      path := [⟨2365, 2500⟩, ⟨2380, 2500⟩, ⟨2395, 2500⟩, ⟨2410, 2500⟩, ⟨2425, 2500⟩, ⟨2440, 2500⟩,
          ⟨2455, 2500⟩, ⟨2470, 2500⟩, ⟨2485, 2500⟩, ⟨2500, 2500⟩, ⟨2504, 2500⟩, ⟨2508, 2500⟩,
          ⟨2512, 2500⟩, ⟨2516, 2500⟩, ⟨2520, 2500⟩, ⟨2524, 2500⟩, ⟨2528, 2500⟩, ⟨2532, 2500⟩,
          ⟨2536, 2500⟩, ⟨2540, 2500⟩, ⟨2544, 2500⟩, ⟨2548, 2500⟩, ⟨2552, 2500⟩, ⟨2556, 2500⟩,
          ⟨2560, 2500⟩],
      segmentsDirty := true, cachedSegments := [] } := by
  norm_num [substeps, appendToPath, axisOracle]

set_option maxHeartbeats 2000000 in
/-- Stage 3 of the anti-tunneling scenario: the trim-by-distance pass drops
the first 4 path points, keeping the retained arc length within length
times SEGMENT_SPACING. -/
theorem c3_trim_eval : Snake.trimPathByDistance axisOracle
    { id := "W", playerId := "pW", name := "W", head := ⟨2560, 2500⟩,
      direction := 0, targetDirection := 0, length := 10, speed := 150,
      color := "#fff", skinId := "neon-green", isAlive := true, spawnTime := 0,
      isBoosting := false,
      path := [⟨2365, 2500⟩, ⟨2380, 2500⟩, ⟨2395, 2500⟩, ⟨2410, 2500⟩, ⟨2425, 2500⟩, ⟨2440, 2500⟩,
          ⟨2455, 2500⟩, ⟨2470, 2500⟩, ⟨2485, 2500⟩, ⟨2500, 2500⟩, ⟨2504, 2500⟩, ⟨2508, 2500⟩,
          ⟨2512, 2500⟩, ⟨2516, 2500⟩, ⟨2520, 2500⟩, ⟨2524, 2500⟩, ⟨2528, 2500⟩, ⟨2532, 2500⟩,
          ⟨2536, 2500⟩, ⟨2540, 2500⟩, ⟨2544, 2500⟩, ⟨2548, 2500⟩, ⟨2552, 2500⟩, ⟨2556, 2500⟩,
          ⟨2560, 2500⟩],
      segmentsDirty := true, cachedSegments := [] } =
    { id := "W", playerId := "pW", name := "W", head := ⟨2560, 2500⟩,
      direction := 0, targetDirection := 0, length := 10, speed := 150,
      color := "#fff", skinId := "neon-green", isAlive := true, spawnTime := 0,
      isBoosting := false,
      path := [⟨2425, 2500⟩, ⟨2440, 2500⟩, ⟨2455, 2500⟩, ⟨2470, 2500⟩, ⟨2485, 2500⟩, ⟨2500, 2500⟩,
          ⟨2504, 2500⟩, ⟨2508, 2500⟩, ⟨2512, 2500⟩, ⟨2516, 2500⟩, ⟨2520, 2500⟩, ⟨2524, 2500⟩,
          ⟨2528, 2500⟩, ⟨2532, 2500⟩, ⟨2536, 2500⟩, ⟨2540, 2500⟩, ⟨2544, 2500⟩, ⟨2548, 2500⟩,
          ⟨2552, 2500⟩, ⟨2556, 2500⟩, ⟨2560, 2500⟩],
      segmentsDirty := true, cachedSegments := [] } := by
  norm_num [Snake.trimPathByDistance, trimIndexLoop, revPairs, axisOracle,
    GAME_CONFIG.SEGMENT_SPACING]

set_option maxHeartbeats 2000000 in
/-- Stage 4 of the anti-tunneling scenario: the whole move call of the
tick, assembled from the sub-step and trim stages. -/
theorem c3_move_eval : Snake.move axisOracle 5000 (2/5)
    { id := "W", playerId := "pW", name := "W", head := ⟨2500, 2500⟩,
      direction := 0, targetDirection := 0, length := 10, speed := 150,
      color := "#fff", skinId := "neon-green", isAlive := true, spawnTime := 0,
      isBoosting := false,
      path := [⟨2365, 2500⟩, ⟨2380, 2500⟩, ⟨2395, 2500⟩, ⟨2410, 2500⟩, ⟨2425, 2500⟩, ⟨2440, 2500⟩,
          ⟨2455, 2500⟩, ⟨2470, 2500⟩, ⟨2485, 2500⟩, ⟨2500, 2500⟩],
      segmentsDirty := true, cachedSegments := [] } =
    { id := "W", playerId := "pW", name := "W", head := ⟨2560, 2500⟩,
      direction := 0, targetDirection := 0, length := 10, speed := 150,
      color := "#fff", skinId := "neon-green", isAlive := true, spawnTime := 0,
      isBoosting := false,
      path := [⟨2425, 2500⟩, ⟨2440, 2500⟩, ⟨2455, 2500⟩, ⟨2470, 2500⟩, ⟨2485, 2500⟩, ⟨2500, 2500⟩,
          ⟨2504, 2500⟩, ⟨2508, 2500⟩, ⟨2512, 2500⟩, ⟨2516, 2500⟩, ⟨2520, 2500⟩, ⟨2524, 2500⟩,
          ⟨2528, 2500⟩, ⟨2532, 2500⟩, ⟨2536, 2500⟩, ⟨2540, 2500⟩, ⟨2544, 2500⟩, ⟨2548, 2500⟩,
          ⟨2552, 2500⟩, ⟨2556, 2500⟩, ⟨2560, 2500⟩],
      segmentsDirty := true, cachedSegments := [] } := by
  have h15 : ((15 : ℤ)).toNat = 15 := rfl
  simp only [Snake.move]
  norm_num [axis_angleDiff, axis_wrap, h15]
  rw [c3_substeps_eval, c3_trim_eval]
  norm_num

set_option maxHeartbeats 2000000 in
/-- Stage 5 of the anti-tunneling scenario: the physics update of the
tick; the boundary handler changes nothing since GAME_CONFIG.MAP_RADIUS is
absent. -/
theorem c3_physics_eval : c3Snakes =
    [{ id := "W", playerId := "pW", name := "W", head := ⟨2560, 2500⟩,
        direction := 0, targetDirection := 0, length := 10, speed := 150,
        color := "#fff", skinId := "neon-green", isAlive := true, spawnTime := 0,
        isBoosting := false,
        path := [⟨2425, 2500⟩, ⟨2440, 2500⟩, ⟨2455, 2500⟩, ⟨2470, 2500⟩, ⟨2485, 2500⟩, ⟨2500, 2500⟩,
            ⟨2504, 2500⟩, ⟨2508, 2500⟩, ⟨2512, 2500⟩, ⟨2516, 2500⟩, ⟨2520, 2500⟩, ⟨2524, 2500⟩,
            ⟨2528, 2500⟩, ⟨2532, 2500⟩, ⟨2536, 2500⟩, ⟨2540, 2500⟩, ⟨2544, 2500⟩, ⟨2548, 2500⟩,
            ⟨2552, 2500⟩, ⟨2556, 2500⟩, ⟨2560, 2500⟩],
        segmentsDirty := true, cachedSegments := [] }] := by
  simp only [c3Snakes, physicsUpdate, List.map]
  rw [c3_snake_literal]
  norm_num [c3_move_eval, handleWorldBoundaries, GAME_CONFIG.MAP_RADIUS, GAME_CONFIG.WORLD_WIDTH,
    GAME_CONFIG.WORLD_HEIGHT]

set_option maxHeartbeats 4000000 in
/-- Stage 6 of the anti-tunneling scenario: the collision update of the
tick neither consumes the food nor emits any event. -/
theorem c3_collision_eval : (lookupFood c3Run.1.food fid1).map Food.isConsumed = some false ∧
    c3Run.2.2 = [] := by
  simp only [c3Run]
  rw [c3_physics_eval]
  norm_num [collisionUpdate, checkSnakeCollisions, checkFoodCollisions, snakeCollisionStep,
    foodCollisionStep, eatFood, victimLoop, findHit, SpatialGrid.rebuild, SpatialGrid.empty,
    SpatialGrid.getSnakeCells, SpatialGrid.getNearbySnakes, SpatialGrid.getFoodInRadius,
    SpatialGrid.addFood, SpatialGrid.removeFood, getCellKey, cellInsert, cellGet,
    cellRemove, dedupCells, mapSet, intRange, lookupFood, updateFood, updatePlayer,
    Snake.getSegments, Snake.computeSegments, segWalk, sampleWhile, revPairs,
    Snake.getHead, Snake.getLastPathPoint, Snake.age, Snake.die, Snake.grow, SegPoint.pos,
    circlesIntersect, pointInCircle, distanceSquared, distanceToSegmentSquared,
    c3Food, c3Grid, playerW, idW, pidW, fid1, colorHex, skinDefault, axisOracle,
    GAME_CONFIG.SEGMENT_RADIUS, GAME_CONFIG.SEGMENT_SPACING, GAME_CONFIG.FOOD_MAX_SIZE,
    GAME_CONFIG.POINTS_PER_FOOD, SPATIAL_GRID_CELL_SIZE, List.range_succ, intLit_toNat,
    int_toNat_one, int_toNat_two]

/-- C3: the anti-tunneling claim fails on the code.  The snake's head moves
from (2500, 2500) to (2560, 2500) in a single tick (delta time 2/5 at
speed 150), the radius-5 food at (2530, 2502) sits on the corridor, and
the food is registered in the spatial food grid, yet the tick consumes
nothing and emits no event: getLastPathPoint returns the final path point,
which is exactly the head that the last movement sub-step just appended, so
the swept segment from the head to it is degenerate and the swept test
reduces to the direct-hit test, which fails at squared distance 904
against a squared grab radius of 225. -/
theorem c3_swept_food_not_consumed :
    c3Snake.head = ⟨2500, 2500⟩ ∧
    c3Snakes.map Snake.head = [⟨2560, 2500⟩] ∧
    c3Snakes.map Snake.getLastPathPoint = [some ⟨2560, 2500⟩] ∧
    (lookupFood c3Run.1.food fid1).map Food.isConsumed = some false ∧
    c3Run.2.2 = [] := by
  refine ⟨?_, ?_, ?_, c3_collision_eval.1, c3_collision_eval.2⟩
  · rw [c3_snake_literal]
  · rw [c3_physics_eval]
    rfl
  · rw [c3_physics_eval]
    rfl

/-- C4 counterexample: a snake of length exactly 10 (which is at most
MIN_BOOST_LENGTH, so the claim says the flag must end up false) does get
its boost flag set by setBoosting true, because the source compares the
length against the literal 5. -/
theorem c4_boost_allowed_at_length_ten :
    c4Snake.length ≤ 10 ∧ (c4Snake.setBoosting true).isBoosting = true := by
  norm_num [Snake.setBoosting, c4Snake, mkSnake]

/-- C4 amended: setBoosting sets the boost flag exactly when boosting is
requested and the length is strictly greater than 5; for length at most 5
the flag is cleared.  The threshold in setBoosting is 5, not 10; the value
10 only appears later, as the auto-clear threshold inside move. -/
theorem c4_setBoosting_threshold_is_five (s : Snake) (b : Bool) :
    (s.setBoosting b).isBoosting = true ↔ b = true ∧ 5 < s.length := by
  unfold Snake.setBoosting
  split
  · simp_all
  · simp_all

/-- C5 counterexample: the broadcaster's periodic interval is not 50
milliseconds and the configured network update rate is not 20. -/
theorem c5_broadcast_not_twenty_hz :
    StateBroadcaster.updateInterval ≠ 50 ∧ NETWORK_CONFIG.UPDATE_RATE ≠ 20 := by
  norm_num [StateBroadcaster.updateInterval, NETWORK_CONFIG.UPDATE_RATE]

/-- C5 amended: the broadcast loop is scheduled from
NETWORK_CONFIG.UPDATE_RATE, which is 60, giving an interval of 1000 over 60
(about 16.7 milliseconds), the same rate as the 60 Hz simulation tick, not
a lower one. -/
theorem c5_broadcast_interval_is_sixty_hz :
    StateBroadcaster.updateInterval = 1000 / 60 ∧
    NETWORK_CONFIG.UPDATE_RATE = 60 ∧
    NETWORK_CONFIG.UPDATE_RATE = GAME_CONFIG.TICK_RATE := by
  norm_num [StateBroadcaster.updateInterval, NETWORK_CONFIG.UPDATE_RATE,
    GAME_CONFIG.TICK_RATE]

set_option maxRecDepth 400000 in
set_option maxHeartbeats 20000000 in
/-- C6 counterexample: the dead snake of the scenario has length 60, so the
claimed loot count is the maximum of 1 and 60 over 20, namely 3; the code
spawns one food item per sampled segment, 15 items here. -/
theorem c6_loot_count_not_length_over_twenty :
    c6Snake.length / 20 = 3 ∧
    (snakeToFood axisOracle c6Rand c6Snake).length = 15 ∧ (15 : ℕ) ≠ 3 := by
  norm_num [snakeToFood, spawnLoop, randomFloat, c6Snake, c6Path, c6Rand, mkSnake,
    Snake.getSegments, Snake.computeSegments, segWalk, sampleWhile, revPairs,
    axisOracle, idW, pidW, colorHex, skinDefault, GAME_CONFIG.SEGMENT_RADIUS,
    GAME_CONFIG.SEGMENT_SPACING, GAME_CONFIG.SNAKE_SPEED, GAME_CONFIG.FOOD_MIN_SIZE,
    GAME_CONFIG.FOOD_MAX_SIZE, List.range_succ]

/-- The per-snake loot step of processDeadSnakes is always 1: the quotient
inside it is exactly 1 when foodPerSegment is 1 and lies in [0, 1)
otherwise, so the floor is 1 or 0 and the outer maximum gives 1. -/
theorem segmentStep_eq_one (n : ℕ) (k : ℤ) (hk : 1 ≤ k) :
    (max 1 ⌊(n : ℚ) / ((n : ℚ) * (k : ℚ))⌋).toNat = 1 := by
  rcases Nat.eq_zero_or_pos n with hn | hn
  · subst hn
    norm_num
  · have hn' : (n : ℚ) ≠ 0 := by positivity
    have : (n : ℚ) / ((n : ℚ) * (k : ℚ)) = 1 / (k : ℚ) := by
      field_simp
    rw [this]
    rcases eq_or_lt_of_le hk with hk1 | hk2
    · rw [← hk1]
      norm_num
    · have hk2' : (1 : ℚ) < (k : ℚ) := by exact_mod_cast hk2
      have h0 : (0 : ℚ) < (k : ℚ) := lt_trans one_pos hk2'
      have hlt : (1 : ℚ) / (k : ℚ) < 1 := by
        rw [div_lt_one h0]
        exact hk2'
      have hge : (0 : ℚ) ≤ 1 / (k : ℚ) := by positivity
      rw [Int.floor_eq_zero_iff.mpr ⟨hge, hlt⟩]
      norm_num

/-- The spawn loop with step 1 emits exactly one food item per remaining
segment index when given enough fuel. -/
theorem spawnLoop_length (r : RandomOracle) (segs : List SegPoint) :
    ∀ fuel i c, segs.length - i < fuel →
      (spawnLoop r segs 1 i c fuel).length = segs.length - i := by
  intro fuel
  induction fuel with
  | zero => intro i c h; omega
  | succ fuel ih =>
      intro i c h
      by_cases hi : i < segs.length
      · rw [spawnLoop]
        rw [List.getElem?_eq_getElem hi]
        simp only [List.length_cons]
        rw [ih (i + 1) (c + 1) (by omega)]
        omega
      · rw [spawnLoop]
        rw [List.getElem?_eq_none (by omega)]
        simp
        omega

/-- Every item the spawn loop emits carries a radius drawn by randomFloat
over [FOOD_MIN_SIZE + 2, FOOD_MAX_SIZE + 4] and the value determined by
that radius. -/
theorem spawnLoop_items (r : RandomOracle) (segs : List SegPoint) (step : ℕ) :
    ∀ fuel i c, ∀ f ∈ spawnLoop r segs step i c fuel,
      (∃ m, f.radius = randomFloat (r.unit m)
        (GAME_CONFIG.FOOD_MIN_SIZE + 2) (GAME_CONFIG.FOOD_MAX_SIZE + 4)) ∧
      f.value = ((max 1 ⌊f.radius * (1/2)⌋ : ℤ) : ℚ) := by
  intro fuel
  induction fuel with
  | zero => intro i c f hf; simp [spawnLoop] at hf
  | succ fuel ih =>
      intro i c f hf
      rw [spawnLoop] at hf
      rcases h : segs[i]? with _ | seg
      · rw [h] at hf; simp at hf
      · rw [h] at hf
        rcases List.mem_cons.mp hf with rfl | hf'
        · exact ⟨⟨c, rfl⟩, rfl⟩
        · exact ih (i + step) (c + 1) f hf'

/-- C6 amended: the death-to-loot conversion of a dead snake spawns one
food item per sampled segment (the computed segment step is always 1), and
each item has radius randomFloat over [FOOD_MIN_SIZE + 2, FOOD_MAX_SIZE + 4]
(i.e. within [5, 12] whenever the unit samples lie in [0, 1]) and value
equal to the maximum of 1 and the floor of half its radius. -/
theorem c6_loot_per_segment (o : NumOracle) (r : RandomOracle) (s : Snake)
    (hu : ∀ n, 0 ≤ r.unit n ∧ r.unit n ≤ 1) :
    (snakeToFood o r s).length = (s.getSegments o).length ∧
    ∀ f ∈ snakeToFood o r s,
      f.value = ((max 1 ⌊f.radius * (1/2)⌋ : ℤ) : ℚ) ∧ 5 ≤ f.radius ∧ f.radius ≤ 12 := by
  have hstep : (max 1 ⌊((s.getSegments o).length : ℚ) /
      (((s.getSegments o).length : ℚ) * ((max 1 ⌊s.length / 20⌋ : ℤ) : ℚ))⌋).toNat = 1 :=
    segmentStep_eq_one _ _ (le_max_left 1 _)
  constructor
  · rw [snakeToFood, hstep, spawnLoop_length r _ _ 0 0 (by omega)]
    omega
  · intro f hf
    rw [snakeToFood, hstep] at hf
    obtain ⟨⟨m, hm⟩, hv⟩ := spawnLoop_items r (s.getSegments o) 1 _ 0 0 f hf
    refine ⟨hv, ?_, ?_⟩
    · rw [hm, randomFloat]
      have := (hu m).1
      norm_num [GAME_CONFIG.FOOD_MIN_SIZE, GAME_CONFIG.FOOD_MAX_SIZE]
      nlinarith [(hu m).1]
    · rw [hm, randomFloat]
      have h1 := (hu m).2
      norm_num [GAME_CONFIG.FOOD_MIN_SIZE, GAME_CONFIG.FOOD_MAX_SIZE]
      nlinarith [(hu m).2]

/-- C6 amended claim instantiated at the scenario snake and random stream:
the conversion spawns one item per segment (15 of them) with in-range radii
and the radius-derived value. -/
theorem c6_loot_per_segment_witness :
    (snakeToFood axisOracle c6Rand c6Snake).length =
      (c6Snake.getSegments axisOracle).length ∧
    ∀ f ∈ snakeToFood axisOracle c6Rand c6Snake,
      f.value = ((max 1 ⌊f.radius * (1/2)⌋ : ℤ) : ℚ) ∧ 5 ≤ f.radius ∧ f.radius ≤ 12 :=
  c6_loot_per_segment axisOracle c6Rand c6Snake (fun n => by norm_num [c6Rand])

/-- C7 counterexample: two players with the equal score 5 whose insertion
order is descending by player id come out of updateLeaderboard still in
insertion order, not in ascending player-id order as the claim states. -/
theorem c7_tie_not_broken_by_ascending_id :
    (∀ p ∈ c7Players, p.score = 5) ∧ pidTie1 < pidTie2 ∧
    (updateLeaderboard c7Players).map LeaderboardEntry.playerId = [pidTie2, pidTie1] := by
  refine ⟨by norm_num [c7Players, playerTieFirst, playerTieSecond],
    by unfold pidTie1 pidTie2; rw [String.lt_iff_toList_lt]; decide, ?_⟩
  norm_num [updateLeaderboard, jsSortByScoreDesc, insertEntryDesc, rankFrom, c7Players,
    playerTieFirst, playerTieSecond, pidTie1, pidTie2, GAME_CONFIG.LEADERBOARD_SIZE]

/-- Elements of a stable descending insertion. -/
theorem mem_insertEntryDesc {x e : LeaderboardEntry} {l : List LeaderboardEntry} :
    x ∈ insertEntryDesc e l ↔ x = e ∨ x ∈ l := by
  induction l with
  | nil => simp [insertEntryDesc]
  | cons a l ih =>
      by_cases h : a.score ≤ e.score
      · simp [insertEntryDesc, h]
      · simp [insertEntryDesc, h, ih]
        tauto

/-- Stable descending insertion preserves descending sortedness by score. -/
theorem pairwise_insertEntryDesc {e : LeaderboardEntry} {l : List LeaderboardEntry}
    (h : l.Pairwise fun a b => b.score ≤ a.score) :
    (insertEntryDesc e l).Pairwise fun a b => b.score ≤ a.score := by
  induction l with
  | nil => simp [insertEntryDesc]
  | cons a l ih =>
      rcases List.pairwise_cons.mp h with ⟨ha, hl⟩
      by_cases hc : a.score ≤ e.score
      · rw [insertEntryDesc, if_pos hc]
        refine List.pairwise_cons.mpr ⟨?_, h⟩
        intro b hb
        rcases List.mem_cons.mp hb with rfl | hb
        · exact hc
        · exact le_trans (ha b hb) hc
      · rw [insertEntryDesc, if_neg hc]
        refine List.pairwise_cons.mpr ⟨?_, ih hl⟩
        intro b hb
        rcases mem_insertEntryDesc.mp hb with rfl | hb
        · exact le_of_lt (lt_of_not_le hc)
        · exact ha b hb

/-- The sort of updateLeaderboard is descending by score. -/
theorem pairwise_jsSortByScoreDesc (l : List LeaderboardEntry) :
    (jsSortByScoreDesc l).Pairwise fun a b => b.score ≤ a.score := by
  induction l with
  | nil => simp [jsSortByScoreDesc]
  | cons a l ih => exact pairwise_insertEntryDesc ih

/-- Stability of the stable descending insertion: the elements of any given
score value appear in the same order as in the input, with the inserted
element in front of its equals. -/
theorem filter_insertEntryDesc (e : LeaderboardEntry) (l : List LeaderboardEntry) (v : ℚ) :
    (insertEntryDesc e l).filter (fun x => decide (x.score = v)) =
      (e :: l).filter (fun x => decide (x.score = v)) := by
  induction l with
  | nil => rfl
  | cons a l ih =>
      by_cases hc : a.score ≤ e.score
      · rw [insertEntryDesc, if_pos hc]
      · rw [insertEntryDesc, if_neg hc]
        rw [List.filter_cons, ih, List.filter_cons, List.filter_cons, List.filter_cons]
        by_cases hev : e.score = v
        · have hav : ¬a.score = v := fun h => hc (le_of_eq (h.trans hev.symm))
          simp [hev, hav]
        · simp [hev]

/-- Stability of the whole sort: for every score value, filtering the
sorted list gives the same sequence as filtering the input. -/
theorem filter_jsSortByScoreDesc (l : List LeaderboardEntry) (v : ℚ) :
    (jsSortByScoreDesc l).filter (fun x => decide (x.score = v)) =
      l.filter (fun x => decide (x.score = v)) := by
  induction l with
  | nil => rfl
  | cons a l ih =>
      show (insertEntryDesc a (jsSortByScoreDesc l)).filter _ = _
      rw [filter_insertEntryDesc]
      simp only [List.filter_cons, ih]

/-- Rank assignment preserves every field except the rank. -/
theorem rankFrom_map_score (k : ℕ) (l : List LeaderboardEntry) :
    (rankFrom k l).map LeaderboardEntry.score = l.map LeaderboardEntry.score := by
  induction l generalizing k with
  | nil => rfl
  | cons a l ih => simp [rankFrom, ih]

/-- Rank assignment produces the consecutive ranks starting at the given
value. -/
theorem rankFrom_map_rank (k : ℕ) (l : List LeaderboardEntry) :
    (rankFrom k l).map LeaderboardEntry.rank = List.range' k l.length := by
  induction l generalizing k with
  | nil => rfl
  | cons a l ih => simp [rankFrom, ih, List.range']

/-- Stable descending insertion adds one element. -/
theorem length_insertEntryDesc (e : LeaderboardEntry) (l : List LeaderboardEntry) :
    (insertEntryDesc e l).length = l.length + 1 := by
  induction l with
  | nil => rfl
  | cons a l ih =>
      by_cases hc : a.score ≤ e.score
      · rw [insertEntryDesc, if_pos hc]
        rfl
      · rw [insertEntryDesc, if_neg hc]
        simp [ih]

/-- The sort is a permutation in particular of the same length. -/
theorem length_jsSortByScoreDesc (l : List LeaderboardEntry) :
    (jsSortByScoreDesc l).length = l.length := by
  induction l with
  | nil => rfl
  | cons a l ih =>
      show (insertEntryDesc a (jsSortByScoreDesc l)).length = _
      rw [length_insertEntryDesc, ih]
      rfl

/-- C7 amended: the published leaderboard is the top-LEADERBOARD_SIZE
players by score descending with ranks 1, 2, ...; among players of equal
score the order is the players-map insertion order (the sort is stable and
compares scores only), not ascending player id. -/
theorem c7_leaderboard_sorted_stable (players : List Player) (v : ℚ) :
    ((updateLeaderboard players).map LeaderboardEntry.score).Pairwise (fun a b => b ≤ a) ∧
    (updateLeaderboard players).map LeaderboardEntry.rank =
      List.range' 1 (min GAME_CONFIG.LEADERBOARD_SIZE players.length) ∧
    (jsSortByScoreDesc (players.map fun p =>
        { playerId := p.id, name := p.name, score := p.score, rank := 0 })).filter
        (fun e => decide (e.score = v)) =
      (players.map fun p =>
        { playerId := p.id, name := p.name, score := p.score, rank := 0 }).filter
        (fun e => decide (e.score = v)) := by
  refine ⟨?_, ?_, filter_jsSortByScoreDesc _ v⟩
  · have h1 := pairwise_jsSortByScoreDesc (players.map fun p =>
      { playerId := p.id, name := p.name, score := p.score, rank := 0 })
    have h2 : ((jsSortByScoreDesc (players.map fun p =>
        { playerId := p.id, name := p.name, score := p.score, rank := 0 })).take
          GAME_CONFIG.LEADERBOARD_SIZE).Pairwise (fun a b => b.score ≤ a.score) :=
      h1.sublist (List.take_sublist _ _)
    rw [updateLeaderboard]
    rw [show ((rankFrom 1 _).map LeaderboardEntry.score) = _ from rankFrom_map_score 1 _]
    exact (List.pairwise_map).mpr h2
  · rw [updateLeaderboard]
    rw [rankFrom_map_rank]
    rw [List.length_take, length_jsSortByScoreDesc, List.length_map]

/-- Inner segment loop under the grace period: a victim younger than 3000
milliseconds hits the continue on every segment, so no hit is found. -/
theorem findHit_grace (now : ℤ) (victim : Snake) (h : victim.age now < 3000) :
    ∀ segs, findHit now victim segs = false := by
  intro segs
  induction segs with
  | nil => rfl
  | cons seg rest ih => rw [findHit, if_pos h]; exact ih

/-- Nearby loop under the grace period: the victim is returned unchanged
and no event is produced. -/
theorem victimLoop_grace (o : NumOracle) (now : ℤ) (victim : Snake)
    (h : victim.age now < 3000) :
    ∀ nearby, victimLoop o now victim nearby = (victim, []) := by
  intro nearby
  induction nearby with
  | nil => rfl
  | cons otherSnake rest ih =>
      rw [victimLoop, findHit_grace now victim h, if_neg (by simp)]
      exact ih

/-- The nearby loop never changes the victim's identity fields. -/
theorem victimLoop_fst_id (o : NumOracle) (now : ℤ) (victim : Snake) :
    ∀ nearby, (victimLoop o now victim nearby).1.id = victim.id := by
  intro nearby
  induction nearby with
  | nil => rfl
  | cons otherSnake rest ih =>
      rw [victimLoop]
      by_cases h : findHit now victim (otherSnake.getSegments o) = true
      · rw [if_pos h]
        rfl
      · rw [if_neg h]
        exact ih

/-- Every event the nearby loop produces names the iterated snake as the
victim. -/
theorem victimLoop_events (o : NumOracle) (now : ℤ) (victim : Snake) :
    ∀ nearby, ∀ e ∈ (victimLoop o now victim nearby).2, e.snakeId = victim.id := by
  intro nearby
  induction nearby with
  | nil => intro e he; simp [victimLoop] at he
  | cons otherSnake rest ih =>
      intro e he
      rw [victimLoop] at he
      by_cases h : findHit now victim (otherSnake.getSegments o) = true
      · rw [if_pos h] at he
        simp at he
        rw [he]
      · rw [if_neg h] at he
        exact ih e he

/-- One iteration of the snake-collision pass preserves the grace
invariant. -/
theorem snakeCollisionStep_grace (o : NumOracle) (now : ℤ) (grid : SpatialGrid)
    (iW : ℕ) (W : Snake) (hgrace : W.age now < 3000)
    (acc : List Snake × List CollisionEvent) (i : ℕ)
    (hinv : GraceInv iW W acc) : GraceInv iW W (snakeCollisionStep o now grid acc i) := by
  obtain ⟨hW, hid, hev⟩ := hinv
  rcases hs : acc.1[i]? with _ | s
  · rw [snakeCollisionStep, hs]
    exact ⟨hW, hid, hev⟩
  · rw [snakeCollisionStep, hs]
    dsimp only
    by_cases hdead : s.isAlive = false
    · rw [if_pos hdead]
      exact ⟨hW, hid, hev⟩
    · rw [if_neg hdead]
      by_cases hiW : i = iW
      · subst hiW
        have hsW : s = W := by rw [hW] at hs; exact (Option.some_injective _ hs).symm
        subst hsW
        rw [victimLoop_grace o now s hgrace]
        have hlen : i < acc.1.length := (List.getElem?_eq_some.mp hs).1
        refine ⟨?_, ?_, ?_⟩
        · rw [List.getElem?_set_self hlen]
        · intro j S hj hSid
          by_cases hji : j = i
          · exact hji
          · rw [List.getElem?_set_ne (fun h => hji h.symm)] at hj
            exact hid j S hj hSid
        · intro e he
          rw [List.append_nil] at he
          exact hev e he
      · have houtid : (victimLoop o now s (grid.getNearbySnakes s acc.1)).1.id = s.id :=
          victimLoop_fst_id o now s _
        have hsid : s.id ≠ W.id := fun h => hiW (hid i s hs h)
        refine ⟨?_, ?_, ?_⟩
        · rw [List.getElem?_set_ne hiW]
          exact hW
        · intro j S hj hSid
          by_cases hji : j = i
          · subst hji
            have hlen : j < acc.1.length := (List.getElem?_eq_some.mp hs).1
            rw [List.getElem?_set_self hlen] at hj
            have hSout : S = (victimLoop o now s (grid.getNearbySnakes s acc.1)).1 :=
              (Option.some_injective _ hj).symm
            rw [hSout, houtid] at hSid
            exact absurd hSid hsid
          · rw [List.getElem?_set_ne (fun h => hji h.symm)] at hj
            exact hid j S hj hSid
        · intro e he
          rcases List.mem_append.mp he with he | he
          · exact hev e he
          · have := victimLoop_events o now s _ e he
            rw [this]
            exact hsid

/-- The whole index fold preserves the grace invariant. -/
theorem foldl_grace (o : NumOracle) (now : ℤ) (grid : SpatialGrid)
    (iW : ℕ) (W : Snake) (hgrace : W.age now < 3000) :
    ∀ (idxs : List ℕ) (acc : List Snake × List CollisionEvent), GraceInv iW W acc →
      GraceInv iW W (idxs.foldl (snakeCollisionStep o now grid) acc) := by
  intro idxs
  induction idxs with
  | nil => intro acc h; exact h
  | cons i rest ih =>
      intro acc h
      exact ih _ (snakeCollisionStep_grace o now grid iW W hgrace acc i h)

/-- C9: a worm younger than SPAWN_GRACE_MS (3000 ms) at collision time
cannot die in the snake-to-snake pass and no snake-snake event names it as
the victim: the grace continue inside the segment loop skips every
head-versus-body test for it, and every other event names its own iterated
snake, whose id differs.  The uniqueness hypothesis mirrors the snakes Map
of the source, whose keys (the snake ids) are unique. -/
theorem c9_grace_period_protects (o : NumOracle) (now : ℤ) (grid : SpatialGrid)
    (snakes : List Snake) (iW : ℕ) (W : Snake)
    (hW : snakes[iW]? = some W)
    (hgrace : W.age now < 3000)
    (hid : ∀ j S, snakes[j]? = some S → S.id = W.id → j = iW) :
    (checkSnakeCollisions o now grid snakes).1[iW]? = some W ∧
    ∀ e ∈ (checkSnakeCollisions o now grid snakes).2, e.snakeId ≠ W.id := by
  have h := foldl_grace o now grid iW W hgrace (List.range snakes.length) (snakes, [])
    ⟨hW, hid, by intro e he; simp at he⟩
  exact ⟨h.1, h.2.2⟩

/-- C9 instantiated: a lone snake spawned at the very tick under
consideration (age 0) survives the snake-collision pass untouched, and no
snake-snake event names it. -/
theorem c9_grace_period_protects_witness :
    (checkSnakeCollisions axisOracle 0 SpatialGrid.empty [c9Snake]).1[0]? = some c9Snake ∧
    ∀ e ∈ (checkSnakeCollisions axisOracle 0 SpatialGrid.empty [c9Snake]).2,
      e.snakeId ≠ c9Snake.id :=
  c9_grace_period_protects axisOracle 0 SpatialGrid.empty [c9Snake] 0 c9Snake rfl
    (by norm_num [Snake.age, c9Snake, mkSnake])
    (by
      intro j S hS _
      have hj : j < 1 := by
        have := (List.getElem?_eq_some.mp hS).1
        simpa using this
      omega)

/-- Updating a food id rewrites the looked-up entry of that id and nothing
else (keys are preserved by updateFood). -/
theorem lookupFood_updateFood_self (m : FoodMap) (fid : String) (f : Food → Food) :
    lookupFood (updateFood m fid f) fid = (lookupFood m fid).map f := by
  induction m with
  | nil => rfl
  | cons a rest ih =>
      by_cases h : a.fst = fid
      · rw [updateFood, List.map_cons, if_pos h, lookupFood,
          List.find?_cons_of_pos _ (by simpa using h), lookupFood,
          List.find?_cons_of_pos _ (by simpa using h)]
        rfl
      · rw [updateFood, List.map_cons, if_neg h, lookupFood,
          List.find?_cons_of_neg _ (by simpa using h), lookupFood,
          List.find?_cons_of_neg _ (by simpa using h)]
        exact ih

/-- Updating one food id leaves the lookups of every other id unchanged. -/
theorem lookupFood_updateFood_ne (m : FoodMap) (fid fid' : String) (f : Food → Food)
    (h : fid' ≠ fid) :
    lookupFood (updateFood m fid f) fid' = lookupFood m fid' := by
  induction m with
  | nil => rfl
  | cons a rest ih =>
      by_cases h2 : a.fst = fid
      · have h1 : ¬ a.fst = fid' := fun hc => h (hc ▸ h2)
        rw [updateFood, List.map_cons, if_pos h2, lookupFood,
          List.find?_cons_of_neg _ (by simpa using h1), lookupFood,
          List.find?_cons_of_neg _ (by simpa using h1)]
        exact ih
      · rw [updateFood, List.map_cons, if_neg h2]
        by_cases h1 : a.fst = fid'
        · rw [lookupFood, List.find?_cons_of_pos _ (by simpa using h1), lookupFood,
            List.find?_cons_of_pos _ (by simpa using h1)]
        · rw [lookupFood, List.find?_cons_of_neg _ (by simpa using h1), lookupFood,
            List.find?_cons_of_neg _ (by simpa using h1)]
          exact ih

/-- Consuming any id keeps every already-consumed lookup consumed. -/
theorem lookupFood_consume_mono (m : FoodMap) (fid fid' : String)
    (h : (lookupFood m fid').map Food.isConsumed = some true) :
    (lookupFood (updateFood m fid Food.consume) fid').map Food.isConsumed = some true := by
  by_cases hf : fid' = fid
  · subst hf
    rw [lookupFood_updateFood_self]
    rcases hl : lookupFood m fid' with _ | g
    · rw [hl] at h
      simp at h
    · simp [Food.consume]
  · rw [lookupFood_updateFood_ne _ _ _ _ hf]
    exact h

/-- After consuming a present id, its lookup reads consumed. -/
theorem lookupFood_consume_self (m : FoodMap) (fid : String) (g : Food)
    (h : lookupFood m fid = some g) :
    (lookupFood (updateFood m fid Food.consume) fid).map Food.isConsumed = some true := by
  rw [lookupFood_updateFood_self, h]
  rfl

/-- One candidate step of the food pass preserves the consumption
invariant: a hit happens only on an unconsumed store entry, which by the
invariant no earlier snake-food event can name, and the entry is consumed
in the very same step. -/
theorem eatFood_inv (now : ℤ) (i : ℕ)
    (st : GameState × SpatialGrid × List CollisionEvent) (fid : String)
    (hinv : FoodConsumedInv st) : FoodConsumedInv (eatFood now i st fid) := by
  obtain ⟨hA, hB⟩ := hinv
  rcases hs : st.1.snakes[i]? with _ | snake
  · rw [eatFood, hs]
    exact ⟨hA, hB⟩
  · rw [eatFood, hs]
    dsimp only
    rcases hg : lookupFood st.1.food fid with _ | foodItem
    · exact ⟨hA, hB⟩
    · dsimp only
      by_cases hc : foodItem.isConsumed = true
      · rw [if_pos hc]
        exact ⟨hA, hB⟩
      · rw [if_neg hc]
        split
        · refine ⟨?_, ?_⟩
          · intro e he htype
            rcases List.mem_append.mp he with he | he
            · obtain ⟨fid', hfid', hcons⟩ := hA e he htype
              exact ⟨fid', hfid', lookupFood_consume_mono st.1.food fid fid' hcons⟩
            · rw [List.mem_singleton] at he
              subst he
              exact ⟨fid, rfl, lookupFood_consume_self st.1.food fid foodItem hg⟩
          · have hnotin : (some fid) ∉
                ((st.2.2.filter fun e => decide (e.type = EventType.snakeFood)).map
                  (fun e => e.targetId)) := by
              intro hmem
              obtain ⟨e, hef, het⟩ := List.mem_map.mp hmem
              obtain ⟨hemem, hep⟩ := List.mem_filter.mp hef
              obtain ⟨fid'', hfid'', hcons⟩ := hA e hemem (of_decide_eq_true hep)
              rw [hfid''] at het
              have hff : fid'' = fid := Option.some_injective _ het
              rw [hff, hg] at hcons
              simp at hcons
              exact hc hcons
            have hsingle :
                (([{ type := EventType.snakeFood, snakeId := snake.id,
                     targetId := some fid, position := foodItem.position,
                     timestamp := now }] : List CollisionEvent).filter
                    fun e => decide (e.type = EventType.snakeFood)).map
                  (fun e => e.targetId) = [some fid] := rfl
            dsimp only
            rw [List.filter_append, List.map_append, hsingle]
            refine (List.nodup_append).mpr ⟨hB, by simp, ?_⟩
            intro a ha hb
            rw [List.mem_singleton] at hb
            subst hb
            exact hnotin ha
        · exact ⟨hA, hB⟩

/-- The fold over the candidate food ids preserves the consumption
invariant. -/
theorem foldl_eatFood_inv (now : ℤ) (i : ℕ) :
    ∀ (fids : List String) (st : GameState × SpatialGrid × List CollisionEvent),
      FoodConsumedInv st → FoodConsumedInv (fids.foldl (eatFood now i) st) := by
  intro fids
  induction fids with
  | nil => intro st h; exact h
  | cons fid rest ih =>
      intro st h
      exact ih _ (eatFood_inv now i st fid h)

/-- One snake of the food pass preserves the consumption invariant. -/
theorem foodCollisionStep_inv (now : ℤ)
    (st : GameState × SpatialGrid × List CollisionEvent) (i : ℕ)
    (h : FoodConsumedInv st) : FoodConsumedInv (foodCollisionStep now st i) := by
  rcases hs : st.1.snakes[i]? with _ | snake
  · rw [foodCollisionStep, hs]
    exact h
  · rw [foodCollisionStep, hs]
    dsimp only
    by_cases hd : snake.isAlive = false
    · rw [if_pos hd]
      exact h
    · rw [if_neg hd]
      exact foldl_eatFood_inv now i _ st h

/-- The whole food pass establishes the consumption invariant from the
empty event list. -/
theorem checkFoodCollisions_inv (now : ℤ) (w : GameState) (grid : SpatialGrid) :
    FoodConsumedInv (checkFoodCollisions now w grid) := by
  rw [checkFoodCollisions]
  have hfold : ∀ (idxs : List ℕ) (st : GameState × SpatialGrid × List CollisionEvent),
      FoodConsumedInv st → FoodConsumedInv (idxs.foldl (foodCollisionStep now) st) := by
    intro idxs
    induction idxs with
    | nil => intro st h; exact h
    | cons i rest ih =>
        intro st h
        exact ih _ (foodCollisionStep_inv now st i h)
  refine hfold _ _ ⟨?_, ?_⟩
  · intro e he
    simp at he
  · simp

/-- Every event of the nearby loop is tagged snake-snake. -/
theorem victimLoop_events_type (o : NumOracle) (now : ℤ) (victim : Snake) :
    ∀ nearby, ∀ e ∈ (victimLoop o now victim nearby).2,
      e.type = EventType.snakeSnake := by
  intro nearby
  induction nearby with
  | nil => intro e he; simp [victimLoop] at he
  | cons otherSnake rest ih =>
      intro e he
      rw [victimLoop] at he
      by_cases h : findHit now victim (otherSnake.getSegments o) = true
      · rw [if_pos h] at he
        rw [List.mem_singleton] at he
        rw [he]
      · rw [if_neg h] at he
        exact ih e he

/-- One step of the snake pass only appends snake-snake events. -/
theorem snakeCollisionStep_events_type (o : NumOracle) (now : ℤ) (grid : SpatialGrid)
    (acc : List Snake × List CollisionEvent) (i : ℕ)
    (h : ∀ e ∈ acc.2, e.type = EventType.snakeSnake) :
    ∀ e ∈ (snakeCollisionStep o now grid acc i).2, e.type = EventType.snakeSnake := by
  rcases hs : acc.1[i]? with _ | s
  · rw [snakeCollisionStep, hs]
    exact h
  · rw [snakeCollisionStep, hs]
    dsimp only
    by_cases hd : s.isAlive = false
    · rw [if_pos hd]
      exact h
    · rw [if_neg hd]
      intro e he
      rcases List.mem_append.mp he with he | he
      · exact h e he
      · exact victimLoop_events_type o now s _ e he

/-- Every event the snake-to-snake pass records is tagged snake-snake. -/
theorem checkSnakeCollisions_events_type (o : NumOracle) (now : ℤ) (grid : SpatialGrid)
    (snakes : List Snake) :
    ∀ e ∈ (checkSnakeCollisions o now grid snakes).2,
      e.type = EventType.snakeSnake := by
  rw [checkSnakeCollisions]
  have hfold : ∀ (idxs : List ℕ) (acc : List Snake × List CollisionEvent),
      (∀ e ∈ acc.2, e.type = EventType.snakeSnake) →
      ∀ e ∈ (idxs.foldl (snakeCollisionStep o now grid) acc).2,
        e.type = EventType.snakeSnake := by
    intro idxs
    induction idxs with
    | nil => intro acc h; exact h
    | cons i rest ih =>
        intro acc h
        exact ih _ (snakeCollisionStep_events_type o now grid acc i h)
  refine hfold _ _ ?_
  intro e he
  simp at he

/-- C8: within one collision update no food item is consumed twice: the
snake-food events of the tick name pairwise distinct food ids.  Eating
marks the store entry consumed in the same step, every later candidate is
re-checked against the live store (and skipped when consumed), and the
snake-to-snake pass contributes only snake-snake events. -/
theorem c8_food_consumed_at_most_once (o : NumOracle) (now : ℤ) (w : GameState)
    (grid : SpatialGrid) :
    (((collisionUpdate o now w grid).2.2.filter
        fun e => decide (e.type = EventType.snakeFood)).map
      (fun e => e.targetId)).Nodup := by
  rw [collisionUpdate]
  dsimp only
  rw [List.filter_append, List.map_append]
  have h1 : ((checkSnakeCollisions o now (grid.rebuild o w.snakes) w.snakes).2.filter
      fun e => decide (e.type = EventType.snakeFood)) = [] := by
    rw [List.filter_eq_nil_iff]
    intro e he
    have ht := checkSnakeCollisions_events_type o now (grid.rebuild o w.snakes) w.snakes e he
    simp [ht]
  rw [h1]
  rw [List.map_nil, List.nil_append]
  exact (checkFoodCollisions_inv now _ _).2

/-- C10: the score field of a serialized snake is the floor of the snake's
length times 10, computed from the snake alone; in the concrete scenario
the owning player's cumulative score, built by addScore, is 100 while the
serialized worm score is 110. -/
theorem c10_serialized_score_is_floor_of_length (s : Snake) :
    (s.serialize).score = ⌊s.length * 10⌋ ∧
    c10Snake.playerId = c10Player.id ∧
    c10Snake.serialize.score = 110 ∧ c10Player.score = 100 ∧ (110 : ℤ) ≠ 100 := by
  refine ⟨rfl, by decide, ?_, ?_, by decide⟩
  · norm_num [Snake.serialize, c10Snake, mkSnake]
  · norm_num [c10Player, playerW, Player.addScore]

end Slither
